import Mathlib

/-!
Verification development for the bot_minting repository.

The Python sources (nft_minting.py, wallet_manager.py, config.py) are shallowly
embedded below.  Network interactions (RPC calls, contract queries, receipt
polling) are modelled as explicit environment records: each fallible remote call
becomes an Option-valued field, so a caught exception in the Python code
corresponds to the none case here.  Monetary quantities (wei, gwei, ether) are
modelled as rationals; floating point rounding is not modelled (the program
only manipulates small decimal configuration values where the distinction is
immaterial to the stated properties), but the Python type error raised by
mixing decimal.Decimal with float in the gas pricing code is modelled
explicitly (decimal_mul_float), since it decides which branch that function
can return from.
-/

namespace BotMinting

/-! ### Gas pricing policy (nft_minting.py, NFTMintingBot.get_current_gas_price) -/

/-- Conversion factor: one gwei expressed in wei. -/
def gwei : ℚ := 1000000000

/-- Observable chain data used by the gas pricing computation.
baseFeePerGas is the latest block's base fee in wei; none models any failure of
the RPC fetch (exception inside the try block of get_current_gas_price).
gasPrice is the legacy observed gas price in wei (w3.eth.gas_price), which the
adapter contract of the specification treats as infallible. -/
structure GasEnv where
  baseFeePerGas : Option ℚ
  gasPrice : ℚ

/-- Result of the gas pricing computation: either a dynamic-fee pair (both in
wei) or a legacy single gas price (wei). -/
inductive GasParams where
  | dynamic (maxFeePerGas maxPriorityFeePerGas : ℚ)
  | legacy (gasPrice : ℚ)
deriving DecidableEq

/-- Bot configuration fields read from the environment in NFTMintingBot.__init__.
max_gas_price and max_priority_fee are ceilings in gwei (integers in the code),
mint_price is in ether, retry_delay and check_interval in seconds. -/
structure BotConfig where
  mint_price : ℚ
  max_gas_price : ℚ
  max_priority_fee : ℚ
  max_retries : ℕ
  retry_delay : ℚ
  check_interval : ℚ

/-- Multiplication of the wei-to-gwei conversion result by the float literal
0.1, as written in get_current_gas_price.  In the web3 major version this code
targets (snake-case methods, rawTransaction, geth_poa_middleware), from_wei
returns a decimal.Decimal, and decimal.Decimal defines no mixed arithmetic
with float: the multiplication raises TypeError instead of producing a number.
none models the raise; no input produces a value. -/
def decimal_mul_float (_x _y : ℚ) : Option ℚ := none

/-- Body of the try block of NFTMintingBot.get_current_gas_price: read the
latest block's base fee (none models the RPC call or the dictionary access
raising), skip the dynamic branch when the base fee is falsy (zero), and
otherwise attempt the dynamic-fee computation
priority = min(P, base_fee_gwei * 0.1), maxFee = min(G, base_fee_gwei +
priority), which stops at the Decimal-times-float multiplication.  A some
result would be a value returned from inside the try block; none means the
block raised or fell through, sending control to the legacy fallback. -/
def get_current_gas_price_try (cfg : BotConfig) (env : GasEnv) : Option GasParams :=
  match env.baseFeePerGas with
  | some base_fee =>
    if base_fee = 0 then none
    else
      let base_fee_gwei := base_fee / gwei
      match decimal_mul_float base_fee_gwei (1 / 10) with
      | some tenth =>
        let max_priority := min cfg.max_priority_fee tenth
        let max_fee := min cfg.max_gas_price (base_fee_gwei + max_priority)
        some (GasParams.dynamic (max_fee * gwei) (max_priority * gwei))
      | none => none
  | none => none

/-- Embedding of NFTMintingBot.get_current_gas_price: the guarded dynamic-fee
attempt followed by the legacy fallback
gasPrice = min(observed gas price, ceiling in wei).  Because the dynamic
attempt always raises at the Decimal-times-float step before reaching its
return, every call in fact produces the legacy form (theorem C1_gas_pricing). -/
def get_current_gas_price (cfg : BotConfig) (env : GasEnv) : GasParams :=
  match get_current_gas_price_try cfg env with
  | some g => g
  | none => GasParams.legacy (min env.gasPrice (cfg.max_gas_price * gwei))

/-! ### Readiness check (nft_minting.py, NFTMintingBot.check_mint_status) -/

/-- Outcomes of the two readiness queries against the contract.
Each field is the outcome of one contract call: none models the call raising
(function absent from the interface or RPC failure), some b a successful call
returning b. -/
structure MintStatusEnv where
  isPublicMintActive : Option Bool
  mintActive : Option Bool

/-- Embedding of NFTMintingBot.check_mint_status: probe isPublicMintActive,
then mintActive, and default to true when neither query succeeds. -/
def check_mint_status (env : MintStatusEnv) : Bool :=
  match env.isPublicMintActive with
  | some b => b
  | none =>
    match env.mintActive with
    | some b => b
    | none => true

/-! ### Transaction builder (nft_minting.py, NFTMintingBot.create_mint_transaction) -/

/-- Which candidate mint entry points the configured contract interface can
encode a call for.  A field is true exactly when the corresponding
build_transaction call in the Python code would succeed. -/
structure ContractInterface where
  mint0 : Bool
  publicMint0 : Bool
  mintPublic0 : Bool
  mintQuantity : Bool
deriving DecidableEq

/-- Candidate mint entry points named by the specification and by
Config.COMMON_ABIS: no-argument mint, no-argument publicMint, no-argument
mintPublic, and one-quantity-argument mint. -/
inductive MintSig where
  | mint0
  | publicMint0
  | mintPublic0
  | mintQuantity
deriving DecidableEq

/-- Embedding of the entry point probing actually performed by
create_mint_transaction: try contract.functions.mint().build_transaction, and on
exception try contract.functions.publicMint().build_transaction; on a second
exception return None.  No other candidate is probed. -/
def resolve_mint_call (i : ContractInterface) : Option MintSig :=
  if i.mint0 then some MintSig.mint0
  else if i.publicMint0 then some MintSig.publicMint0
  else none

/-- Probe order asserted by the specification: four candidates (mint,
publicMint, mintPublic, quantity mint) tried in that order, first success wins.
Stated only for comparison against resolve_mint_call, which embeds the order the
source actually implements. -/
def resolve_mint_call_claimed (i : ContractInterface) : Option MintSig :=
  if i.mint0 then some MintSig.mint0
  else if i.publicMint0 then some MintSig.publicMint0
  else if i.mintPublic0 then some MintSig.mintPublic0
  else if i.mintQuantity then some MintSig.mintQuantity
  else none

/-- Per-attempt chain data consumed by the transaction builder: the fresh
sender nonce, the chain id, the gas estimation outcome (none models
estimate_gas raising) and the contract interface description. -/
structure TxEnv where
  nonce : ℕ
  chain_id : ℕ
  gas_estimate : Option ℕ
  interface : ContractInterface

/-- The transaction candidate assembled by create_mint_transaction.  value is
in wei; gas is the gas limit; callSig records which entry point was resolved. -/
structure MintTx where
  value : ℚ
  nonce : ℕ
  chain_id : ℕ
  gas : ℕ
  gasParams : GasParams
  callSig : MintSig
deriving DecidableEq

/-- Embedding of NFTMintingBot.create_mint_transaction: fetch nonce and chain
id, compute gas parameters, convert the mint price to wei, estimate gas (20%
buffer on success, 200000 default on failure; the float multiplication by 1.2
is modelled as multiplication by 6/5 with truncation), then resolve the entry
point; None when no probed candidate encodes. -/
def create_mint_transaction (cfg : BotConfig) (genv : GasEnv) (tenv : TxEnv) :
    Option MintTx :=
  let gas_params := get_current_gas_price cfg genv
  let mint_price_wei := cfg.mint_price * 1000000000000000000
  let gas :=
    match tenv.gas_estimate with
    | some e => 6 * e / 5
    | none => 200000
  match resolve_mint_call tenv.interface with
  | some s =>
    some { value := mint_price_wei, nonce := tenv.nonce, chain_id := tenv.chain_id,
           gas := gas, gasParams := gas_params, callSig := s }
  | none => none

/-! ### Confirmation wait (nft_minting.py, NFTMintingBot.wait_for_transaction) -/

/-- Transaction receipt as observed by the bot: only the status field is read. -/
structure Receipt where
  status : ℕ
deriving DecidableEq

/-- Terminal result of the confirmation wait, used to classify the attempt:
a receipt with status 1, a receipt with any other status, or no receipt within
the poll budget. -/
inductive WaitResult where
  | success
  | failure
  | timeout
deriving DecidableEq

/-- Receipt oracle: the chain's answer to the poll with the given index.
none models TransactionNotFound at that poll. -/
def ReceiptOracle : Type := ℕ → Option Receipt

/-- Poll ceiling of wait_for_transaction (max_attempts = 30 in the code). -/
def wait_max_attempts : ℕ := 30

/-- Recursive core of wait_for_transaction: starting at poll index a with the
given remaining fuel (iterations of the while loop), return True exactly when a
receipt with status 1 is observed before the fuel runs out. -/
def wait_from (gr : ReceiptOracle) : ℕ → ℕ → Bool
  | _, 0 => false
  | a, fuel + 1 =>
    match gr a with
    | some r => decide (r.status = 1)
    | none => wait_from gr (a + 1) fuel

/-- Classification of the same loop into the three terminal states of the
specification's state machine (ConfirmedSuccess, ConfirmedFailure, TimedOut);
it mirrors wait_from step for step. -/
def wait_classify_from (gr : ReceiptOracle) : ℕ → ℕ → WaitResult
  | _, 0 => WaitResult.timeout
  | a, fuel + 1 =>
    match gr a with
    | some r => if r.status = 1 then WaitResult.success else WaitResult.failure
    | none => wait_classify_from gr (a + 1) fuel

/-- Number of 2-second sleeps the loop performs: one after every poll that saw
no receipt (the code sleeps after the attempts counter increments, and returns
without sleeping as soon as a receipt is seen). -/
def wait_sleeps_from (gr : ReceiptOracle) : ℕ → ℕ → ℕ
  | _, 0 => 0
  | a, fuel + 1 =>
    match gr a with
    | some _ => 0
    | none => wait_sleeps_from gr (a + 1) fuel + 1

/-- Number of polls (get_transaction_receipt calls) the loop performs. -/
def wait_polls_from (gr : ReceiptOracle) : ℕ → ℕ → ℕ
  | _, 0 => 0
  | a, fuel + 1 =>
    match gr a with
    | some _ => 1
    | none => wait_polls_from gr (a + 1) fuel + 1

/-- Embedding of NFTMintingBot.wait_for_transaction: poll from index 0 with a
budget of 30 iterations. -/
def wait_for_transaction (gr : ReceiptOracle) : Bool :=
  wait_from gr 0 wait_max_attempts

/-- Terminal classification of the confirmation wait from the initial state. -/
def wait_classify (gr : ReceiptOracle) : WaitResult :=
  wait_classify_from gr 0 wait_max_attempts

/-- Total polls performed by one confirmation wait. -/
def wait_polls (gr : ReceiptOracle) : ℕ :=
  wait_polls_from gr 0 wait_max_attempts

/-- Seconds spent sleeping during one confirmation wait (2 seconds per sleep). -/
def wait_sleep_seconds (gr : ReceiptOracle) : ℕ :=
  2 * wait_sleeps_from gr 0 wait_max_attempts

/-! ### Mint attempt (nft_minting.py, NFTMintingBot.attempt_mint) -/

/-- Environment of one mint attempt: every external interaction the attempt
performs.  raiseEarly models an unexpected exception in the attempt body before
the send step (caught by the surrounding try and turned into a False return);
signOk models whether sign_transaction succeeds for a present key (a malformed
key raises); sendOk whether send_raw_transaction returns a hash. -/
structure AttemptEnv where
  raiseEarly : Bool
  status : MintStatusEnv
  gas : GasEnv
  tx : TxEnv
  signOk : Bool
  sendOk : Bool
  receipt : ReceiptOracle

/-- Mutable bot state read and written by the attempt and the retry loop.
private_key is none when no usable key is available (in particular after a
swallowed decryption failure, see get_wallet_private_key below). -/
structure Bot where
  private_key : Option String
  total_attempts : ℕ
  successful_mints : ℕ
deriving DecidableEq

/-- Terminal state of one attempt, following the specification's taxonomy. -/
inductive Outcome where
  | notReady
  | buildFailure
  | exnCaught
  | sendFailure
  | confirmedSuccess
  | confirmedFailure
  | timedOut
deriving DecidableEq

/-- Terminal state reached by attempt_mint for a given key and environment,
mirroring the control flow of the Python body: an unexpected exception is
caught (exnCaught); a false readiness check exits notReady; a None transaction
exits buildFailure; signing with a missing key raises TypeError inside the try
and is caught (exnCaught), as is a signing failure for a malformed key; a None
send result exits sendFailure; otherwise the confirmation wait classifies the
attempt. -/
def attempt_outcome (cfg : BotConfig) (key : Option String) (env : AttemptEnv) :
    Outcome :=
  if env.raiseEarly then Outcome.exnCaught
  else if check_mint_status env.status = false then Outcome.notReady
  else
    match create_mint_transaction cfg env.gas env.tx with
    | none => Outcome.buildFailure
    | some _ =>
      match key with
      | none => Outcome.exnCaught
      | some _ =>
        if env.signOk = false then Outcome.exnCaught
        else if env.sendOk = false then Outcome.sendFailure
        else
          match wait_classify env.receipt with
          | WaitResult.success => Outcome.confirmedSuccess
          | WaitResult.failure => Outcome.confirmedFailure
          | WaitResult.timeout => Outcome.timedOut

/-- Embedding of NFTMintingBot.attempt_mint: returns the boolean the Python
coroutine returns together with the updated bot state; successful_mints is
incremented exactly in the branch where the confirmation wait returned True. -/
def attempt_mint (cfg : BotConfig) (bot : Bot) (env : AttemptEnv) : Bool × Bot :=
  if env.raiseEarly then (false, bot)
  else if check_mint_status env.status = false then (false, bot)
  else
    match create_mint_transaction cfg env.gas env.tx with
    | none => (false, bot)
    | some _ =>
      match bot.private_key with
      | none => (false, bot)
      | some _ =>
        if env.signOk = false then (false, bot)
        else if env.sendOk = false then (false, bot)
        else
          let success := wait_for_transaction env.receipt
          if success then
            (true, { bot with successful_mints := bot.successful_mints + 1 })
          else (false, bot)

/-! ### Retry loop (nft_minting.py, NFTMintingBot.run_continuous_mint) -/

/-- Embedding of NFTMintingBot.run_continuous_mint over a finite trace of
attempt environments (the script): while successful_mints is below the target
and the trace provides a next attempt environment, increment total_attempts,
run one attempt, break when the attempt succeeded and the target is reached,
and otherwise continue, sleeping the retry delay once after every unsuccessful
attempt.  Returns the final bot state together with the number of retry-delay
sleeps performed. -/
def run_continuous_mint (cfg : BotConfig) (bot : Bot) (target : ℕ) :
    List AttemptEnv → Bot × ℕ
  | [] => (bot, 0)
  | env :: rest =>
    if bot.successful_mints < target then
      let bot1 := { bot with total_attempts := bot.total_attempts + 1 }
      let step := attempt_mint cfg bot1 env
      if step.1 && decide (target ≤ step.2.successful_mints) then (step.2, 0)
      else
        let tail := run_continuous_mint cfg step.2 target rest
        (tail.1, tail.2 + (if step.1 then 0 else 1))
    else (bot, 0)

/-! ### Wallet manager (wallet_manager.py, WalletManager) -/

/-- Symmetric cipher used for private keys (cryptography.fernet.Fernet in the
code, an external library).  Byte strings are modelled as lists of byte values.
encrypt and decrypt are the library's token operations; the library contract
(decrypt inverts encrypt, tokens are ASCII) enters the theorems as hypotheses. -/
structure CipherSuite where
  encrypt : List ℕ → List ℕ
  decrypt : List ℕ → List ℕ

/-- Python str.encode (UTF-8): for the ASCII strings this program handles
(hex private keys and base64 Fernet tokens) the encoding is the code point
sequence. -/
def strToBytes (s : String) : List ℕ := s.data.map Char.toNat

/-- Python bytes.decode (UTF-8), restricted likewise to the ASCII range. -/
def bytesToStr (bs : List ℕ) : String := String.mk (bs.map Char.ofNat)

/-- Embedding of WalletManager.encrypt_private_key:
cipher.encrypt(private_key.encode()).decode(). -/
def encrypt_private_key (c : CipherSuite) (private_key : String) : String :=
  bytesToStr (c.encrypt (strToBytes private_key))

/-- Embedding of WalletManager.decrypt_private_key:
cipher.decrypt(encrypted_key.encode()).decode(). -/
def decrypt_private_key (c : CipherSuite) (encrypted_key : String) : String :=
  bytesToStr (c.decrypt (strToBytes encrypted_key))

/-- Wallet record as stored on disk by the wallet manager, restricted to the
fields the embedded operations read.  success_rate is absent (none) until the
first statistics update writes it. -/
structure Wallet where
  name : String
  address : String
  private_key_encrypted : String
  last_used : Option String
  total_mints : ℕ
  successful_mints : ℕ
  failed_mints : ℕ
  total_gas_spent : ℚ
  success_rate : Option ℚ
deriving DecidableEq

/-- Record written by WalletManager.add_wallet (after the private key has been
validated and encrypted): all counters start at 0, last_used and success_rate
are unset. -/
def add_wallet_record (name address encrypted_key : String) : Wallet :=
  { name := name, address := address, private_key_encrypted := encrypted_key,
    last_used := none, total_mints := 0, successful_mints := 0,
    failed_mints := 0, total_gas_spent := 0, success_rate := none }

/-- Embedding of WalletManager.update_wallet_stats on a loaded wallet record:
stamp last_used, increment successful_mints or failed_mints according to the
success flag, increment total_mints, accumulate gas, and (total_mints being
positive) recompute success_rate as successful_mints / total_mints * 100. -/
def update_wallet_stats (w : Wallet) (success : Bool) (gas_spent : ℚ)
    (now : String) : Wallet :=
  let w1 := { w with last_used := some now }
  let w2 :=
    if success then { w1 with successful_mints := w1.successful_mints + 1 }
    else { w1 with failed_mints := w1.failed_mints + 1 }
  let w3 := { w2 with total_mints := w2.total_mints + 1,
                      total_gas_spent := w2.total_gas_spent + gas_spent }
  if 0 < w3.total_mints then
    let rate : ℚ := (w3.successful_mints : ℚ) / (w3.total_mints : ℚ) * 100
    { w3 with success_rate := some rate }
  else w3

/-- Sequence of statistics updates applied to a wallet record, in order; each
list entry carries the success flag, the gas spent and the timestamp of one
update. -/
def apply_updates (w : Wallet) : List (Bool × ℚ × String) → Wallet
  | [] => w
  | u :: us => apply_updates (update_wallet_stats w u.1 u.2.1 u.2.2) us

/-- Stored wallet data as seen by get_wallet_private_key: the address and,
when the JSON object has the private_key_encrypted field, its ciphertext. -/
structure StoredWallet where
  address : String
  private_key_encrypted : Option String

/-- Wallet manager as the orchestrator sees it: a name-indexed store of wallet
records (get_wallet; none models a missing file) and the decryption operation
(none models cipher.decrypt raising on a wrong key or corrupt token). -/
structure WalletStore where
  store : String → Option StoredWallet
  decrypt : String → Option String

/-- Embedding of WalletManager.get_wallet_private_key: load the wallet, and if
it exists and has an encrypted key, try to decrypt it; the except branch in the
code catches a decryption failure and returns None instead of propagating. -/
def get_wallet_private_key (m : WalletStore) (wallet_name : String) :
    Option String :=
  match m.store wallet_name with
  | some w =>
    match w.private_key_encrypted with
    | some c => m.decrypt c
    | none => none
  | none => none

/-! ### Bot initialization (nft_minting.py, NFTMintingBot.__init__) -/

/-- Configuration environment read by NFTMintingBot.__init__: the network RPC
URL (none models a missing environment variable, which raises), the fallback
key pair from the environment, the contract address, and the mint function ABI
(none when the variable is unset, some false when set but invalid JSON, some
true when it parses). -/
structure InitEnv where
  rpc_url : Option String
  env_private_key : Option String
  env_public_key : Option String
  contract_address : Option String
  mint_function_abi : Option Bool

/-- Embedding of NFTMintingBot.__init__ for a given optional wallet name:
raises (error) when the RPC URL is missing, when the named wallet is not found,
when the contract configuration is missing, or when the ABI JSON is invalid;
a decryption failure inside get_wallet_private_key is NOT an error and leaves
the bot with private_key = none.  On success the counters start at zero. -/
def bot_init (ienv : InitEnv) (m : WalletStore) (wallet_name : Option String) :
    Except String Bot :=
  match ienv.rpc_url with
  | none => Except.error "RPC URL not found in environment variables"
  | some _ =>
    let keyResult : Except String (Option String) :=
      match wallet_name with
      | some name =>
        match m.store name with
        | some _ => Except.ok (get_wallet_private_key m name)
        | none => Except.error "Wallet not found"
      | none => Except.ok ienv.env_private_key
    match keyResult with
    | Except.error e => Except.error e
    | Except.ok pk =>
      match ienv.contract_address, ienv.mint_function_abi with
      | none, _ => Except.error "Contract configuration not found"
      | some _, none => Except.error "Contract configuration not found"
      | some _, some false => Except.error "Invalid MINT_FUNCTION_ABI JSON format"
      | some _, some true =>
        Except.ok { private_key := pk, total_attempts := 0, successful_mints := 0 }

/-- One whole run: initialize the bot and, when initialization succeeds, drive
the retry loop over the given attempt trace.  An initialization error aborts
before any attempt. -/
def run_bot (ienv : InitEnv) (m : WalletStore) (wallet_name : Option String)
    (cfg : BotConfig) (target : ℕ) (script : List AttemptEnv) :
    Except String (Bot × ℕ) :=
  match bot_init ienv m wallet_name with
  | Except.error e => Except.error e
  | Except.ok bot => Except.ok (run_continuous_mint cfg bot target script)

/-! ### Shared sample data used by witnesses -/

/-- Default configuration of the bot (the fallback values in __init__ /
Config.DEFAULT_SETTINGS): mint price 0.05 ether, gas ceiling 100 gwei,
priority ceiling 2 gwei, 50 advisory retries, 0.5 s retry delay, 1 s check
interval. -/
def sampleConfig : BotConfig := ⟨5 / 100, 100, 2, 50, 1 / 2, 1⟩

/-- Attempt environment in which every stage succeeds and the first poll sees
a status-1 receipt. -/
def sampleOkEnv : AttemptEnv :=
  { raiseEarly := false, status := ⟨some true, none⟩, gas := ⟨none, 0⟩,
    tx := ⟨0, 1, none, ⟨true, true, true, true⟩⟩, signOk := true, sendOk := true,
    receipt := fun _ => some ⟨1⟩ }

/-- Attempt environment whose send step fails (send_raw_transaction raises). -/
def sampleFailEnv : AttemptEnv :=
  { raiseEarly := false, status := ⟨some true, none⟩, gas := ⟨none, 0⟩,
    tx := ⟨0, 1, none, ⟨true, true, true, true⟩⟩, signOk := true, sendOk := false,
    receipt := fun _ => none }

/-- Wallet store whose single stored wallet decrypts unsuccessfully: the
stored ciphertext is present but the cipher rejects it (wrong key). -/
def sampleBadStore : WalletStore :=
  { store := fun _ => some ⟨"0xabc", some "tok"⟩, decrypt := fun _ => none }

/-- Fully populated initialization environment (RPC URL, contract address and
valid ABI present). -/
def sampleInitEnv : InitEnv :=
  { rpc_url := some "http", env_private_key := none, env_public_key := none,
    contract_address := some "0xc", mint_function_abi := some true }

/-- Toy cipher satisfying the library contract used by the round-trip
witness: token = reversed byte list. -/
def sampleCipher : CipherSuite := ⟨List.reverse, List.reverse⟩

/-! ### C1: gas pricing on the dynamic-fee path -/

/-- C1 (code bug): the claimed dynamic-fee outputs are never produced.  The
source writes the claimed formulae priority = min(P, 0.1 * baseFeeGwei) and
maxFee = min(G, baseFeeGwei + priority), but from_wei returns a
decimal.Decimal and multiplying it by the float 0.1 raises TypeError, which
the bare except swallows; so for every environment — including Scenario A's
observable base fee of 20 gwei with ceilings G = 100 and P = 2, where the
claim expects the pair (22 gwei, 2 gwei) — the computation returns the legacy
form gasPrice = min(observed gas price, G in wei) and never any dynamic-fee
pair. -/
theorem C1_gas_pricing :
    (∀ (cfg : BotConfig) (env : GasEnv),
      get_current_gas_price cfg env =
        GasParams.legacy (min env.gasPrice (cfg.max_gas_price * gwei))) ∧
    get_current_gas_price sampleConfig ⟨some (20 * gwei), 30 * gwei⟩ =
      GasParams.legacy (30 * gwei) ∧
    (∀ (cfg : BotConfig) (env : GasEnv) (p q : ℚ),
      get_current_gas_price cfg env ≠ GasParams.dynamic p q) := by
  have hall : ∀ (cfg : BotConfig) (env : GasEnv),
      get_current_gas_price cfg env =
        GasParams.legacy (min env.gasPrice (cfg.max_gas_price * gwei)) := by
    intro cfg env
    unfold get_current_gas_price get_current_gas_price_try decimal_mul_float
    cases env.baseFeePerGas with
    | none => rfl
    | some b => by_cases hb : b = 0 <;> simp [hb]
  refine ⟨hall, ?_, fun cfg env p q h => ?_⟩
  · rw [hall]
    norm_num [gwei, sampleConfig, min_def]
  · rw [hall] at h
    exact GasParams.noConfusion h

/-! ### C8: gas pricing legacy fallback -/

/-- C8: whenever the base fee is unavailable (any failure of the fetch), the
gas pricing computation returns the legacy form with
gasPrice = min(observed gas price, ceiling converted to wei); being a total
function of its environment, it raises nothing. -/
theorem C8_legacy_fallback (cfg : BotConfig) (env : GasEnv)
    (h : env.baseFeePerGas = none) :
    get_current_gas_price cfg env =
      GasParams.legacy (min env.gasPrice (cfg.max_gas_price * gwei)) := by
  simp [get_current_gas_price, get_current_gas_price_try, h]

/-- C8 witness (Scenario B): base fee unavailable, observed legacy gas price
150 gwei, ceiling 100 gwei: the returned gasPrice is 100 gwei. -/
theorem C8_legacy_fallback_witness :
    get_current_gas_price sampleConfig ⟨none, 150 * gwei⟩ =
      GasParams.legacy (100 * gwei) := by
  have h := C8_legacy_fallback sampleConfig ⟨none, 150 * gwei⟩ rfl
  rw [h]
  norm_num [gwei, sampleConfig, min_def]

/-! ### C7: readiness default when both queries are unavailable -/

/-- C7: when both readiness queries are unavailable the readiness check
returns true, and deterministically so: any two calls under the
unavailable-query condition return the same result. -/
theorem C7_readiness_default (e1 e2 : MintStatusEnv)
    (h1 : e1.isPublicMintActive = none) (h2 : e1.mintActive = none)
    (h3 : e2.isPublicMintActive = none) (h4 : e2.mintActive = none) :
    check_mint_status e1 = true ∧ check_mint_status e1 = check_mint_status e2 := by
  simp [check_mint_status, h1, h2, h3, h4]

/-- C7 witness: the readiness check on the fully unavailable environment. -/
theorem C7_readiness_default_witness :
    check_mint_status ⟨none, none⟩ = true ∧
    check_mint_status ⟨none, none⟩ = check_mint_status ⟨none, none⟩ :=
  C7_readiness_default ⟨none, none⟩ ⟨none, none⟩ rfl rfl rfl rfl

/-! ### C2: mint entry point probing -/

/-- C2 (amended): the transaction builder probes exactly two candidate
signatures in fixed order, the no-argument mint and then the no-argument
publicMint; the first that encodes is used, and a build failure is returned
exactly when both of those fail (the mintPublic and quantity-argument mint
candidates listed in Config.COMMON_ABIS are never probed). -/
theorem C2_mint_probe (cfg : BotConfig) (genv : GasEnv) (tenv : TxEnv) :
    (tenv.interface.mint0 = true →
      resolve_mint_call tenv.interface = some MintSig.mint0) ∧
    (tenv.interface.mint0 = false → tenv.interface.publicMint0 = true →
      resolve_mint_call tenv.interface = some MintSig.publicMint0) ∧
    (create_mint_transaction cfg genv tenv = none ↔
      tenv.interface.mint0 = false ∧ tenv.interface.publicMint0 = false) := by
  refine ⟨fun h => by simp [resolve_mint_call, h],
    fun h h' => by simp [resolve_mint_call, h, h'], ?_⟩
  cases hm : tenv.interface.mint0 <;> cases hp : tenv.interface.publicMint0 <;>
    simp [create_mint_transaction, resolve_mint_call, hm, hp]

/-- C2 witness: an interface offering only publicMint resolves to publicMint,
and an interface offering neither probed candidate yields a build failure. -/
theorem C2_mint_probe_witness :
    resolve_mint_call ⟨false, true, false, false⟩ = some MintSig.publicMint0 ∧
    create_mint_transaction sampleConfig ⟨none, 0⟩
        ⟨0, 1, none, ⟨false, false, true, true⟩⟩ = none :=
  ⟨(C2_mint_probe sampleConfig ⟨none, 0⟩ ⟨0, 1, none, ⟨false, true, false, false⟩⟩).2.1
      rfl rfl,
   (C2_mint_probe sampleConfig ⟨none, 0⟩ ⟨0, 1, none, ⟨false, false, true, true⟩⟩).2.2.mpr
      ⟨rfl, rfl⟩⟩

/-- C2 counterexample: for an interface where only mintPublic and the
quantity-argument mint encode, the builder fails (returns None) although the
claimed four-candidate order would succeed with mintPublic, and although not
all four candidates fail to encode. -/
theorem C2_mint_probe_counterexample :
    resolve_mint_call ⟨false, false, true, true⟩ = none ∧
    create_mint_transaction sampleConfig ⟨none, 0⟩
        ⟨0, 1, none, ⟨false, false, true, true⟩⟩ = none ∧
    resolve_mint_call_claimed ⟨false, false, true, true⟩ =
      some MintSig.mintPublic0 := by
  refine ⟨rfl, ?_, rfl⟩
  simp [create_mint_transaction, resolve_mint_call]

/-! ### Helper lemmas about the confirmation wait -/

/-- The boolean returned by the wait loop agrees with the terminal
classification: it is true exactly on the success terminal state. -/
lemma wait_from_true_iff (gr : ReceiptOracle) (fuel : ℕ) :
    ∀ a, wait_from gr a fuel = true ↔
      wait_classify_from gr a fuel = WaitResult.success := by
  induction fuel with
  | zero => intro a; simp [wait_from, wait_classify_from]
  | succ n ih =>
    intro a
    simp only [wait_from, wait_classify_from]
    cases h : gr a with
    | none => exact ih (a + 1)
    | some r => by_cases hs : r.status = 1 <;> simp [hs]

/-- If no receipt appears during the whole fuel window, the wait times out and
sleeps once per iteration. -/
lemma wait_classify_from_timeout (gr : ReceiptOracle) (fuel : ℕ) :
    ∀ a, (∀ j, j < fuel → gr (a + j) = none) →
      wait_classify_from gr a fuel = WaitResult.timeout ∧
      wait_sleeps_from gr a fuel = fuel := by
  induction fuel with
  | zero => intro a _; exact ⟨rfl, rfl⟩
  | succ n ih =>
    intro a h
    have h0 : gr a = none := by simpa using h 0 (Nat.succ_pos n)
    have hrec := ih (a + 1) (fun j hj => by
      have := h (j + 1) (by omega)
      simpa [Nat.add_assoc, Nat.add_comm 1 j] using this)
    simp only [wait_classify_from, wait_sleeps_from, h0]
    exact ⟨hrec.1, by rw [hrec.2]⟩

/-- If the first receipt appears at poll index k inside the fuel window, the
wait terminates on it and classifies by its status. -/
lemma wait_classify_from_first (gr : ReceiptOracle) :
    ∀ k a fuel, k < fuel → (∀ j, j < k → gr (a + j) = none) →
      ∀ r, gr (a + k) = some r →
      wait_classify_from gr a fuel =
        (if r.status = 1 then WaitResult.success else WaitResult.failure) := by
  intro k
  induction k with
  | zero =>
    intro a fuel hf hnone r hr
    obtain ⟨f, rfl⟩ : ∃ f, fuel = f + 1 := ⟨fuel - 1, by omega⟩
    have hr0 : gr a = some r := by simpa using hr
    simp [wait_classify_from, hr0]
  | succ n ih =>
    intro a fuel hf hnone r hr
    obtain ⟨f, rfl⟩ : ∃ f, fuel = f + 1 := ⟨fuel - 1, by omega⟩
    have h0 : gr a = none := by simpa using hnone 0 (Nat.succ_pos n)
    simp only [wait_classify_from, h0]
    refine ih (a + 1) f (by omega) (fun j hj => ?_) r ?_
    · have := hnone (j + 1) (by omega)
      simpa [Nat.add_assoc, Nat.add_comm 1 j] using this
    · simpa [Nat.add_assoc, Nat.add_comm 1 n] using hr

/-- The wait never performs more polls than its fuel allows. -/
lemma wait_polls_from_le (gr : ReceiptOracle) (fuel : ℕ) :
    ∀ a, wait_polls_from gr a fuel ≤ fuel := by
  induction fuel with
  | zero => intro a; simp [wait_polls_from]
  | succ n ih =>
    intro a
    simp only [wait_polls_from]
    cases h : gr a with
    | none => exact Nat.succ_le_succ (ih (a + 1))
    | some r => exact Nat.succ_le_succ (Nat.zero_le n)

/-! ### Helper lemmas about one attempt -/

/-- attempt_mint is fully described by attempt_outcome: the returned boolean is
true exactly on the ConfirmedSuccess terminal state, and the success counter is
incremented exactly then. -/
lemma attempt_mint_eq (cfg : BotConfig) (bot : Bot) (env : AttemptEnv) :
    attempt_mint cfg bot env =
      (decide (attempt_outcome cfg bot.private_key env = Outcome.confirmedSuccess),
       if attempt_outcome cfg bot.private_key env = Outcome.confirmedSuccess then
         { bot with successful_mints := bot.successful_mints + 1 }
       else bot) := by
  unfold attempt_mint attempt_outcome
  by_cases hre : env.raiseEarly = true
  · simp [hre]
  by_cases hcheck : check_mint_status env.status = false
  · simp [hre, hcheck]
  cases hc : create_mint_transaction cfg env.gas env.tx with
  | none => simp [hre, hcheck, hc]
  | some tx =>
    cases hk : bot.private_key with
    | none => simp [hre, hcheck, hc]
    | some key =>
      by_cases hsig : env.signOk = false
      · simp [hre, hcheck, hc, hsig]
      by_cases hsend : env.sendOk = false
      · simp [hre, hcheck, hc, hsig, hsend]
      have hw : wait_for_transaction env.receipt = true ↔
          wait_classify env.receipt = WaitResult.success :=
        wait_from_true_iff env.receipt wait_max_attempts 0
      cases hwb : wait_for_transaction env.receipt with
      | true =>
        have hcl : wait_classify env.receipt = WaitResult.success := hw.mp hwb
        simp [hre, hcheck, hc, hsig, hsend, hwb, hcl]
      | false =>
        have hcl : wait_classify env.receipt ≠ WaitResult.success := by
          intro h
          rw [hw.mpr h] at hwb
          exact Bool.noConfusion hwb
        cases hcl2 : wait_classify env.receipt with
        | success => exact absurd hcl2 hcl
        | failure => simp [hre, hcheck, hc, hsig, hsend, hwb, hcl2]
        | timeout => simp [hre, hcheck, hc, hsig, hsend, hwb, hcl2]

/-- One attempt never changes the attempt counter or the stored key. -/
lemma attempt_mint_frame (cfg : BotConfig) (bot : Bot) (env : AttemptEnv) :
    (attempt_mint cfg bot env).2.total_attempts = bot.total_attempts ∧
    (attempt_mint cfg bot env).2.private_key = bot.private_key := by
  rw [attempt_mint_eq]
  by_cases h : attempt_outcome cfg bot.private_key env = Outcome.confirmedSuccess <;>
    simp [h]

/-- The success counter moves by one exactly when the attempt reports success. -/
lemma attempt_mint_succ (cfg : BotConfig) (bot : Bot) (env : AttemptEnv) :
    (attempt_mint cfg bot env).2.successful_mints =
      bot.successful_mints + (if (attempt_mint cfg bot env).1 then 1 else 0) := by
  rw [attempt_mint_eq]
  by_cases h : attempt_outcome cfg bot.private_key env = Outcome.confirmedSuccess <;>
    simp [h]

/-- With no usable private key, the signing step raises inside the guarded body
and the attempt can never reach ConfirmedSuccess. -/
lemma attempt_outcome_no_key (cfg : BotConfig) (env : AttemptEnv) :
    attempt_outcome cfg none env ≠ Outcome.confirmedSuccess := by
  unfold attempt_outcome
  cases env.raiseEarly with
  | true => simp
  | false =>
    cases hs : check_mint_status env.status with
    | false => simp
    | true =>
      cases hc : create_mint_transaction cfg env.gas env.tx <;> simp [hs]

/-- With no usable private key the attempt is a no-op failure. -/
lemma attempt_mint_no_key (cfg : BotConfig) (bot : Bot) (env : AttemptEnv)
    (h : bot.private_key = none) : attempt_mint cfg bot env = (false, bot) := by
  rw [attempt_mint_eq, h]
  simp [attempt_outcome_no_key]

/-! ### Helper lemmas about the retry loop -/

/-- Unfolding of one loop iteration while the target has not been reached. -/
lemma run_cons (cfg : BotConfig) (bot : Bot) (target : ℕ) (env : AttemptEnv)
    (rest : List AttemptEnv) (h : bot.successful_mints < target) :
    run_continuous_mint cfg bot target (env :: rest) =
      if (attempt_mint cfg { bot with total_attempts := bot.total_attempts + 1 } env).1 &&
          decide (target ≤
            (attempt_mint cfg { bot with total_attempts := bot.total_attempts + 1 }
              env).2.successful_mints) then
        ((attempt_mint cfg { bot with total_attempts := bot.total_attempts + 1 } env).2, 0)
      else
        ((run_continuous_mint cfg
            (attempt_mint cfg { bot with total_attempts := bot.total_attempts + 1 } env).2
            target rest).1,
         (run_continuous_mint cfg
            (attempt_mint cfg { bot with total_attempts := bot.total_attempts + 1 } env).2
            target rest).2 +
           (if (attempt_mint cfg { bot with total_attempts := bot.total_attempts + 1 }
              env).1 then 0 else 1)) := by
  simp only [run_continuous_mint, if_pos h]

/-- Once the success counter has reached the target the loop issues nothing. -/
lemma run_stop (cfg : BotConfig) (bot : Bot) (target : ℕ)
    (script : List AttemptEnv) (h : target ≤ bot.successful_mints) :
    run_continuous_mint cfg bot target script = (bot, 0) := by
  cases script with
  | nil => rfl
  | cons env rest => simp only [run_continuous_mint, if_neg (Nat.not_lt.mpr h)]

/-- The advisory retry ceiling is invisible to one attempt. -/
lemma attempt_mint_retries (cfg : BotConfig) (n : ℕ) (bot : Bot)
    (env : AttemptEnv) :
    attempt_mint { cfg with max_retries := n } bot env = attempt_mint cfg bot env := rfl

/-- The advisory retry ceiling is invisible to the whole loop. -/
lemma run_retries (cfg : BotConfig) (n : ℕ) (target : ℕ) :
    ∀ (script : List AttemptEnv) (bot : Bot),
      run_continuous_mint { cfg with max_retries := n } bot target script =
        run_continuous_mint cfg bot target script := by
  intro script
  induction script with
  | nil => intro bot; rfl
  | cons env rest ih =>
    intro bot
    by_cases h : bot.successful_mints < target
    · rw [run_cons _ bot target env rest h, run_cons cfg bot target env rest h]
      rw [attempt_mint_retries, ih]
    · rw [run_stop _ bot target _ (Nat.not_lt.mp h),
        run_stop cfg bot target _ (Nat.not_lt.mp h)]

/-- With no usable key every attempt fails, so the loop consumes the whole
trace: one attempt and one retry-delay sleep per trace element, and no
successes. -/
lemma run_no_key (cfg : BotConfig) (target : ℕ) :
    ∀ (script : List AttemptEnv) (bot : Bot), bot.private_key = none →
      bot.successful_mints < target →
      run_continuous_mint cfg bot target script =
        ({ bot with total_attempts := bot.total_attempts + script.length },
          script.length) := by
  intro script
  induction script with
  | nil => intro bot hk h; simp [run_continuous_mint]
  | cons env rest ih =>
    intro bot hk h
    rw [run_cons cfg bot target env rest h]
    have hA : attempt_mint cfg { bot with total_attempts := bot.total_attempts + 1 } env =
        (false, { bot with total_attempts := bot.total_attempts + 1 }) :=
      attempt_mint_no_key cfg _ env (by simp [hk])
    rw [hA]
    simp only [Bool.false_and, Bool.false_eq_true, if_false]
    rw [ih { bot with total_attempts := bot.total_attempts + 1 } (by simp [hk])
      (by simpa using h)]
    simp only [List.length_cons]
    refine Prod.ext ?_ ?_ <;> (simp; try omega)

/-- Master induction over the retry loop: the attempt counter never decreases,
the stored key is untouched, the success counter never decreases, never
overshoots the target (unless it started above it), the success-before-attempt
invariant is preserved, and attempts gained equal successes gained plus
retry-delay sleeps. -/
lemma run_master (cfg : BotConfig) (target : ℕ) :
    ∀ (script : List AttemptEnv) (bot : Bot),
      bot.total_attempts ≤ (run_continuous_mint cfg bot target script).1.total_attempts ∧
      (run_continuous_mint cfg bot target script).1.private_key = bot.private_key ∧
      bot.successful_mints ≤
        (run_continuous_mint cfg bot target script).1.successful_mints ∧
      (run_continuous_mint cfg bot target script).1.successful_mints ≤
        max bot.successful_mints target ∧
      (run_continuous_mint cfg bot target script).1.total_attempts +
          bot.successful_mints =
        bot.total_attempts +
          (run_continuous_mint cfg bot target script).1.successful_mints +
          (run_continuous_mint cfg bot target script).2 ∧
      (bot.successful_mints ≤ bot.total_attempts →
        (run_continuous_mint cfg bot target script).1.successful_mints ≤
          (run_continuous_mint cfg bot target script).1.total_attempts) := by
  intro script
  induction script with
  | nil =>
    intro bot
    refine ⟨Nat.le_refl _, rfl, Nat.le_refl _, Nat.le_max_left _ _,
      by simp [run_continuous_mint], fun h => h⟩
  | cons env rest ih =>
    intro bot
    by_cases hlt : bot.successful_mints < target
    · rw [run_cons cfg bot target env rest hlt]
      have hfr : (attempt_mint cfg
          { bot with total_attempts := bot.total_attempts + 1 } env).2.total_attempts =
          bot.total_attempts + 1 :=
        (attempt_mint_frame cfg { bot with total_attempts := bot.total_attempts + 1 } env).1
      have hky : (attempt_mint cfg
          { bot with total_attempts := bot.total_attempts + 1 } env).2.private_key =
          bot.private_key :=
        (attempt_mint_frame cfg { bot with total_attempts := bot.total_attempts + 1 } env).2
      have hsc : (attempt_mint cfg
          { bot with total_attempts := bot.total_attempts + 1 } env).2.successful_mints =
          bot.successful_mints +
            (if (attempt_mint cfg
              { bot with total_attempts := bot.total_attempts + 1 } env).1 then 1 else 0) :=
        attempt_mint_succ cfg { bot with total_attempts := bot.total_attempts + 1 } env
      by_cases hbr : ((attempt_mint cfg
          { bot with total_attempts := bot.total_attempts + 1 } env).1 &&
          decide (target ≤ (attempt_mint cfg
            { bot with total_attempts := bot.total_attempts + 1 }
            env).2.successful_mints)) = true
      · have hb : (attempt_mint cfg
            { bot with total_attempts := bot.total_attempts + 1 } env).1 = true :=
          (Bool.and_eq_true .. ▸ hbr).1
        rw [hb] at hsc
        simp only [if_true] at hsc
        simp only [hbr, if_true]
        exact ⟨by omega, hky, by omega, by omega, by omega, fun h => by omega⟩
      · rw [Bool.not_eq_true] at hbr
        simp only [hbr, Bool.false_eq_true, if_false]
        obtain ⟨t1, t2, t3, t4, t5, t6⟩ := ih (attempt_mint cfg
          { bot with total_attempts := bot.total_attempts + 1 } env).2
        by_cases hb : (attempt_mint cfg
            { bot with total_attempts := bot.total_attempts + 1 } env).1 = true
        · have hnr : ¬ (target ≤ (attempt_mint cfg
              { bot with total_attempts := bot.total_attempts + 1 }
              env).2.successful_mints) := by
            intro hcontra
            rw [hb, decide_eq_true hcontra] at hbr
            exact Bool.noConfusion hbr
          rw [hb] at hsc
          simp only [if_true] at hsc
          rw [hb]
          simp only [if_true]
          refine ⟨by omega, by rw [t2, hky], by omega, by omega, by omega,
            fun h => t6 (by omega)⟩
        · rw [Bool.not_eq_true] at hb
          rw [hb] at hsc
          simp only [Bool.false_eq_true, if_false] at hsc
          rw [hb]
          simp only [Bool.false_eq_true, if_false]
          refine ⟨by omega, by rw [t2, hky], by omega, by omega, by omega,
            fun h => t6 (by omega)⟩
    · rw [run_stop cfg bot target _ (Nat.not_lt.mp hlt)]
      refine ⟨Nat.le_refl _, rfl, Nat.le_refl _, Nat.le_max_left _ _, by simp, fun h => h⟩

/-! ### C4: loop control -/

/-- C4: the mint loop issues a new attempt whenever the success counter is
below the target (and given a next attempt environment), stops issuing
attempts exactly when the counter reaches the target, never consults the
configured retry ceiling (runs with different ceilings coincide, and with an
unusable key the number of recorded unsuccessful attempts grows with the trace
without bound), and sleeps the retry delay exactly once per unsuccessful
attempt (attempts gained equal successes gained plus sleeps). -/
theorem C4_retry_loop (cfg : BotConfig) (bot : Bot) (target : ℕ)
    (script : List AttemptEnv) (n m : ℕ) (env : AttemptEnv)
    (rest : List AttemptEnv) :
    (target ≤ bot.successful_mints →
      run_continuous_mint cfg bot target script = (bot, 0)) ∧
    (bot.successful_mints < target →
      bot.total_attempts <
        (run_continuous_mint cfg bot target (env :: rest)).1.total_attempts) ∧
    (run_continuous_mint { cfg with max_retries := n } bot target script =
      run_continuous_mint { cfg with max_retries := m } bot target script) ∧
    ((run_continuous_mint cfg bot target script).1.successful_mints ≤
      max bot.successful_mints target) ∧
    ((run_continuous_mint cfg bot target script).1.total_attempts +
        bot.successful_mints =
      bot.total_attempts +
        (run_continuous_mint cfg bot target script).1.successful_mints +
        (run_continuous_mint cfg bot target script).2) ∧
    (∀ N : ℕ,
      (run_continuous_mint cfg ⟨none, 0, 0⟩ 1 (List.replicate N env)).1.total_attempts =
        N) := by
  refine ⟨fun h => run_stop cfg bot target script h, fun h => ?_,
    by rw [run_retries cfg n target script bot, run_retries cfg m target script bot],
    (run_master cfg target script bot).2.2.2.1,
    (run_master cfg target script bot).2.2.2.2.1, fun N => ?_⟩
  · rw [run_cons cfg bot target env rest h]
    have hfr : (attempt_mint cfg
        { bot with total_attempts := bot.total_attempts + 1 } env).2.total_attempts =
        bot.total_attempts + 1 :=
      (attempt_mint_frame cfg { bot with total_attempts := bot.total_attempts + 1 } env).1
    by_cases hbr : ((attempt_mint cfg
        { bot with total_attempts := bot.total_attempts + 1 } env).1 &&
        decide (target ≤ (attempt_mint cfg
          { bot with total_attempts := bot.total_attempts + 1 }
          env).2.successful_mints)) = true
    · simp only [hbr, if_true]
      omega
    · rw [Bool.not_eq_true] at hbr
      simp only [hbr, Bool.false_eq_true, if_false]
      have := (run_master cfg target rest (attempt_mint cfg
        { bot with total_attempts := bot.total_attempts + 1 } env).2).1
      omega
  · rw [run_no_key cfg 1 (List.replicate N env) ⟨none, 0, 0⟩ rfl (by decide)]
    simp

/-- C4 witness (Scenario D): with target 3 and a trace offering successes at
positions 2, 4, 5 and 6, the loop stops after the fifth attempt with exactly 3
successes, having slept twice (after the two failures); a bot already at the
target issues nothing; and runs differing only in the retry ceiling agree. -/
theorem C4_retry_loop_witness :
    run_continuous_mint sampleConfig ⟨some "k", 0, 3⟩ 3 [sampleOkEnv] =
      (⟨some "k", 0, 3⟩, 0) ∧
    run_continuous_mint { sampleConfig with max_retries := 0 } ⟨some "k", 0, 0⟩ 1
        [sampleOkEnv] =
      run_continuous_mint { sampleConfig with max_retries := 1000000 }
        ⟨some "k", 0, 0⟩ 1 [sampleOkEnv] ∧
    run_continuous_mint sampleConfig ⟨some "k", 0, 0⟩ 3
        [sampleFailEnv, sampleOkEnv, sampleFailEnv, sampleOkEnv, sampleOkEnv,
          sampleOkEnv] =
      (⟨some "k", 5, 3⟩, 2) :=
  ⟨(C4_retry_loop sampleConfig ⟨some "k", 0, 3⟩ 3 [sampleOkEnv] 0 0 sampleOkEnv []).1
      (Nat.le_refl 3),
   (C4_retry_loop sampleConfig ⟨some "k", 0, 0⟩ 1 [sampleOkEnv] 0 1000000 sampleOkEnv
      []).2.2.1,
   by rfl⟩

/-! ### C6: success counter discipline -/

/-- C6: for every attempt, the success counter moves up by one exactly when the
terminal state is ConfirmedSuccess (every other terminal state, including a
caught exception, leaves it unchanged), one attempt never touches the attempt
counter, and after any run of the loop successes never exceed attempts. -/
theorem C6_success_counter (cfg : BotConfig) (bot : Bot) (env : AttemptEnv)
    (target : ℕ) (script : List AttemptEnv) :
    ((attempt_mint cfg bot env).1 = true ↔
      attempt_outcome cfg bot.private_key env = Outcome.confirmedSuccess) ∧
    ((attempt_mint cfg bot env).2.successful_mints =
      bot.successful_mints +
        (if attempt_outcome cfg bot.private_key env = Outcome.confirmedSuccess then 1
         else 0)) ∧
    ((attempt_mint cfg bot env).2.total_attempts = bot.total_attempts) ∧
    (bot.successful_mints ≤ bot.total_attempts →
      (run_continuous_mint cfg bot target script).1.successful_mints ≤
        (run_continuous_mint cfg bot target script).1.total_attempts) := by
  refine ⟨?_, ?_, (attempt_mint_frame cfg bot env).1,
    (run_master cfg target script bot).2.2.2.2.2⟩ <;>
    rw [attempt_mint_eq] <;>
    by_cases h : attempt_outcome cfg bot.private_key env = Outcome.confirmedSuccess <;>
    simp [h]

/-- C6 witness: starting from a fresh bot state the invariant hypothesis holds
and is preserved by a run over one all-stages-succeed attempt. -/
theorem C6_success_counter_witness :
    (run_continuous_mint sampleConfig ⟨some "k", 0, 0⟩ 1 [sampleOkEnv]).1.successful_mints ≤
      (run_continuous_mint sampleConfig ⟨some "k", 0, 0⟩ 1 [sampleOkEnv]).1.total_attempts :=
  (C6_success_counter sampleConfig ⟨some "k", 0, 0⟩ sampleOkEnv 1 [sampleOkEnv]).2.2.2
    (Nat.le_refl 0)

/-! ### C5: confirmation wait -/

/-- C5: the confirmation wait polls at most 30 times; if the first receipt
(appearing at poll k within the budget) has status 1 the attempt terminates as
ConfirmedSuccess, if it has any other status as ConfirmedFailure; if no receipt
appears during all 30 polls the wait times out after 30 two-second sleeps (60
seconds), the attempt counts as a failure leaving the bot state unchanged, and
the loop proceeds to the next attempt after one retry-delay sleep. -/
theorem C5_confirmation_wait (gr : ReceiptOracle) (k : ℕ) (r : Receipt)
    (hk : k < 30) (hfirst : ∀ j, j < k → gr j = none) :
    wait_polls gr ≤ 30 ∧
    (gr k = some r → r.status = 1 →
      wait_classify gr = WaitResult.success ∧ wait_for_transaction gr = true) ∧
    (gr k = some r → r.status ≠ 1 →
      wait_classify gr = WaitResult.failure ∧ wait_for_transaction gr = false) ∧
    ((∀ j, j < 30 → gr j = none) →
      wait_classify gr = WaitResult.timeout ∧ wait_for_transaction gr = false ∧
        wait_sleep_seconds gr = 60) ∧
    (∀ cfg bot env, env.receipt = gr → (∀ j, j < 30 → gr j = none) →
      attempt_mint cfg bot env = (false, bot)) ∧
    (∀ cfg (bot : Bot) target env rest, env.receipt = gr →
      (∀ j, j < 30 → gr j = none) → bot.successful_mints < target →
      run_continuous_mint cfg bot target (env :: rest) =
        ((run_continuous_mint cfg { bot with total_attempts := bot.total_attempts + 1 }
            target rest).1,
         (run_continuous_mint cfg { bot with total_attempts := bot.total_attempts + 1 }
            target rest).2 + 1)) := by
  have hto : (∀ j, j < 30 → gr j = none) →
      wait_classify gr = WaitResult.timeout ∧
      wait_sleeps_from gr 0 wait_max_attempts = 30 := by
    intro h
    exact wait_classify_from_timeout gr wait_max_attempts 0 (fun j hj => by
      simpa using h j hj)
  have hwfalse : (∀ j, j < 30 → gr j = none) → wait_for_transaction gr = false := by
    intro h
    have hcl := (hto h).1
    have hiff := wait_from_true_iff gr wait_max_attempts 0
    cases hwb : wait_for_transaction gr with
    | false => rfl
    | true =>
      have : wait_classify gr = WaitResult.success := hiff.mp hwb
      rw [hcl] at this
      exact WaitResult.noConfusion this
  have hattempt : ∀ cfg bot env, env.receipt = gr → (∀ j, j < 30 → gr j = none) →
      attempt_mint cfg bot env = (false, bot) := by
    intro cfg bot env henv h
    rw [attempt_mint_eq]
    have hne : attempt_outcome cfg bot.private_key env ≠ Outcome.confirmedSuccess := by
      unfold attempt_outcome
      by_cases hre : env.raiseEarly = true
      · simp [hre]
      by_cases hcheck : check_mint_status env.status = false
      · simp [hre, hcheck]
      cases hc : create_mint_transaction cfg env.gas env.tx with
      | none => simp [hre, hcheck]
      | some tx =>
        cases hkey : bot.private_key with
        | none => simp [hre, hcheck, hc]
        | some key =>
          by_cases hsig : env.signOk = false
          · simp [hre, hcheck, hc, hsig]
          by_cases hsend : env.sendOk = false
          · simp [hre, hcheck, hc, hsig, hsend]
          have hcl : wait_classify env.receipt = WaitResult.timeout := by
            rw [henv]; exact (hto h).1
          simp [hre, hcheck, hc, hsig, hsend, hcl]
    simp [hne]
  refine ⟨wait_polls_from_le gr wait_max_attempts 0, fun hr hs => ?_, fun hr hs => ?_,
    fun h => ⟨(hto h).1, hwfalse h, by
      have := (hto h).2
      unfold wait_sleep_seconds
      omega⟩,
    hattempt, ?_⟩
  · have hcl : wait_classify gr = WaitResult.success := by
      have := wait_classify_from_first gr k 0 wait_max_attempts hk
        (fun j hj => by simpa using hfirst j hj) r (by simpa using hr)
      rw [if_pos hs] at this
      exact this
    exact ⟨hcl, (wait_from_true_iff gr wait_max_attempts 0).mpr hcl⟩
  · have hcl : wait_classify gr = WaitResult.failure := by
      have := wait_classify_from_first gr k 0 wait_max_attempts hk
        (fun j hj => by simpa using hfirst j hj) r (by simpa using hr)
      rw [if_neg hs] at this
      exact this
    refine ⟨hcl, ?_⟩
    have hiff := wait_from_true_iff gr wait_max_attempts 0
    cases hwb : wait_for_transaction gr with
    | false => rfl
    | true =>
      have : wait_classify gr = WaitResult.success := hiff.mp hwb
      rw [hcl] at this
      exact WaitResult.noConfusion this
  · intro cfg bot target env rest henv h hlt
    rw [run_cons cfg bot target env rest hlt]
    rw [hattempt cfg { bot with total_attempts := bot.total_attempts + 1 } env henv h]
    simp only [Bool.false_and, Bool.false_eq_true, if_false]

/-- C5 witness: the oracle that never produces a receipt times out after 30
polls and 60 seconds of sleeping, with the wait reporting failure. -/
theorem C5_confirmation_wait_witness :
    wait_classify (fun _ => none) = WaitResult.timeout ∧
    wait_for_transaction (fun _ => none) = false ∧
    wait_sleep_seconds (fun _ => none) = 60 :=
  (C5_confirmation_wait (fun _ => none) 0 ⟨1⟩ (by omega)
    (fun j hj => absurd hj (Nat.not_lt_zero j))).2.2.2.1 (fun j hj => rfl)

/-! ### C3: decryption failure handling -/

/-- C3 (amended): a failed wallet decryption does not propagate out of
initialization: get_wallet_private_key catches it and returns None, the bot
initializes successfully with no usable key, and the run then proceeds
issuing attempts, every one of which fails at the signing step; over any
attempt trace the run records one failed attempt per trace element and zero
successes, instead of aborting with zero attempts. -/
theorem C3_decryption_swallowed (ienv : InitEnv) (m : WalletStore) (name : String)
    (w : StoredWallet) (c : String) (cfg : BotConfig) (target : ℕ)
    (script : List AttemptEnv) (u a : String)
    (hs : m.store name = some w) (hc : w.private_key_encrypted = some c)
    (hd : m.decrypt c = none) (hu : ienv.rpc_url = some u)
    (ha : ienv.contract_address = some a) (hj : ienv.mint_function_abi = some true)
    (ht : 0 < target) :
    bot_init ienv m (some name) = Except.ok ⟨none, 0, 0⟩ ∧
    run_bot ienv m (some name) cfg target script =
      Except.ok (⟨none, script.length, 0⟩, script.length) := by
  have hinit : bot_init ienv m (some name) = Except.ok ⟨none, 0, 0⟩ := by
    simp [bot_init, get_wallet_private_key, hu, hs, hc, hd, ha, hj]
  refine ⟨hinit, ?_⟩
  simp only [run_bot, hinit]
  rw [run_no_key cfg target script ⟨none, 0, 0⟩ rfl (by simpa using ht)]
  simp

/-- C3 witness: a store whose decryption fails, with complete contract
configuration, initializes with no key and then records one failed attempt for
a one-element trace. -/
theorem C3_decryption_swallowed_witness :
    bot_init sampleInitEnv sampleBadStore (some "w") = Except.ok ⟨none, 0, 0⟩ ∧
    run_bot sampleInitEnv sampleBadStore (some "w") sampleConfig 1 [sampleOkEnv] =
      Except.ok (⟨none, 1, 0⟩, 1) :=
  C3_decryption_swallowed sampleInitEnv sampleBadStore "w" ⟨"0xabc", some "tok"⟩
    "tok" sampleConfig 1 [sampleOkEnv] "http" "0xc" rfl rfl rfl rfl rfl rfl
    (by omega)

/-- C3 counterexample: under a failing decryption the run does not abort and
does not record zero attempts: initialization succeeds, the loop runs, and the
attempt counter ends at 1 for a one-element trace. -/
theorem C3_decryption_swallowed_counterexample :
    run_bot sampleInitEnv sampleBadStore (some "w") sampleConfig 1 [sampleOkEnv] =
      Except.ok (⟨none, 1, 0⟩, 1) ∧
    (1 : ℕ) ≠ 0 := by
  exact ⟨rfl, by decide⟩

/-! ### Helper lemmas about wallet statistics and the cipher -/

/-- Field accounting of one statistics update: exactly one of the success and
failure counters moves, the total moves by one, and the stored success rate is
recomputed from the updated counters. -/
lemma update_wallet_stats_fields (w : Wallet) (s : Bool) (g : ℚ) (t : String) :
    (update_wallet_stats w s g t).total_mints = w.total_mints + 1 ∧
    (update_wallet_stats w s g t).successful_mints =
      w.successful_mints + (if s then 1 else 0) ∧
    (update_wallet_stats w s g t).failed_mints =
      w.failed_mints + (if s then 0 else 1) ∧
    (update_wallet_stats w s g t).success_rate =
      some (((update_wallet_stats w s g t).successful_mints : ℚ) /
        ((update_wallet_stats w s g t).total_mints : ℚ) * 100) := by
  cases s <;> simp [update_wallet_stats]

/-- The counter-sum invariant is preserved by any sequence of updates. -/
lemma apply_updates_total (us : List (Bool × ℚ × String)) :
    ∀ w : Wallet, w.total_mints = w.successful_mints + w.failed_mints →
      (apply_updates w us).total_mints =
        (apply_updates w us).successful_mints + (apply_updates w us).failed_mints := by
  induction us with
  | nil => intro w h; exact h
  | cons u rest ih =>
    intro w h
    simp only [apply_updates]
    apply ih
    obtain ⟨h1, h2, h3, _⟩ := update_wallet_stats_fields w u.1 u.2.1 u.2.2
    rw [h1, h2, h3, h]
    cases u.1 <;> simp <;> omega

/-- After at least one update the stored success rate equals
successes / total * 100 over the current counters. -/
lemma apply_updates_rate (us : List (Bool × ℚ × String)) :
    ∀ w : Wallet, us ≠ [] →
      (apply_updates w us).success_rate =
        some (((apply_updates w us).successful_mints : ℚ) /
          ((apply_updates w us).total_mints : ℚ) * 100) := by
  induction us with
  | nil => intro w h; exact absurd rfl h
  | cons u rest ih =>
    intro w _
    simp only [apply_updates]
    by_cases hrest : rest = []
    · subst hrest
      simpa [apply_updates] using
        (update_wallet_stats_fields w u.1 u.2.1 u.2.2).2.2.2
    · exact ih (update_wallet_stats w u.1 u.2.1 u.2.2) hrest

/-- Code points below 128 survive the Char round trip. -/
lemma char_toNat_ofNat {n : ℕ} (h : n < 128) : (Char.ofNat n).toNat = n := by
  have hv : n.isValidChar := Or.inl (by omega)
  simp only [Char.ofNat, hv, dite_true, Char.toNat, Char.ofNatAux]
  rfl

/-- Encoding after decoding is the identity on byte lists in the ASCII range. -/
lemma strToBytes_bytesToStr (bs : List ℕ) (h : ∀ b ∈ bs, b < 128) :
    strToBytes (bytesToStr bs) = bs := by
  unfold strToBytes bytesToStr
  show (bs.map Char.ofNat).map Char.toNat = bs
  rw [List.map_map]
  have heq : ∀ b ∈ bs, (Char.toNat ∘ Char.ofNat) b = id b :=
    fun b hb => char_toNat_ofNat (h b hb)
  rw [List.map_congr_left heq, List.map_id]

/-- Decoding after encoding is the identity on strings. -/
lemma bytesToStr_strToBytes (s : String) : bytesToStr (strToBytes s) = s := by
  unfold strToBytes bytesToStr
  rw [List.map_map]
  have heq : ∀ c ∈ s.data, (Char.ofNat ∘ Char.toNat) c = id c :=
    fun c _ => Char.ofNat_toNat c
  rw [List.map_congr_left heq, List.map_id]

/-! ### C9: wallet statistics invariants -/

/-- C9: starting from the record created by add_wallet (all counters zero) and
applying any nonempty sequence of statistics updates, the total equals
successes plus failures and the stored success rate equals
successes / total * 100; moreover each single update increments exactly one of
the success and failure counters according to its flag and the total by one. -/
theorem C9_wallet_stats (name address encrypted_key : String)
    (us : List (Bool × ℚ × String)) (hne : us ≠ []) (w' : Wallet) (s : Bool)
    (g : ℚ) (t : String) :
    (apply_updates (add_wallet_record name address encrypted_key) us).total_mints =
      (apply_updates (add_wallet_record name address encrypted_key) us).successful_mints +
        (apply_updates (add_wallet_record name address encrypted_key) us).failed_mints ∧
    (apply_updates (add_wallet_record name address encrypted_key) us).success_rate =
      some (((apply_updates (add_wallet_record name address encrypted_key)
          us).successful_mints : ℚ) /
        ((apply_updates (add_wallet_record name address encrypted_key)
          us).total_mints : ℚ) * 100) ∧
    (update_wallet_stats w' s g t).total_mints = w'.total_mints + 1 ∧
    (update_wallet_stats w' s g t).successful_mints =
      w'.successful_mints + (if s then 1 else 0) ∧
    (update_wallet_stats w' s g t).failed_mints =
      w'.failed_mints + (if s then 0 else 1) :=
  ⟨apply_updates_total us (add_wallet_record name address encrypted_key)
      (by simp [add_wallet_record]),
   apply_updates_rate us (add_wallet_record name address encrypted_key) hne,
   (update_wallet_stats_fields w' s g t).1,
   (update_wallet_stats_fields w' s g t).2.1,
   (update_wallet_stats_fields w' s g t).2.2.1⟩

/-- C9 witness: one successful update of a fresh record leaves the invariants
in force (in particular a 100 percent success rate over one total mint). -/
theorem C9_wallet_stats_witness :
    (apply_updates (add_wallet_record "w" "0xa" "enc") [(true, 0, "t")]).total_mints =
      (apply_updates (add_wallet_record "w" "0xa" "enc")
          [(true, 0, "t")]).successful_mints +
        (apply_updates (add_wallet_record "w" "0xa" "enc")
          [(true, 0, "t")]).failed_mints ∧
    (apply_updates (add_wallet_record "w" "0xa" "enc") [(true, 0, "t")]).success_rate =
      some (((apply_updates (add_wallet_record "w" "0xa" "enc")
          [(true, 0, "t")]).successful_mints : ℚ) /
        ((apply_updates (add_wallet_record "w" "0xa" "enc")
          [(true, 0, "t")]).total_mints : ℚ) * 100) :=
  ⟨(C9_wallet_stats "w" "0xa" "enc" [(true, 0, "t")] (by simp)
      (add_wallet_record "w" "0xa" "enc") true 0 "t").1,
   (C9_wallet_stats "w" "0xa" "enc" [(true, 0, "t")] (by simp)
      (add_wallet_record "w" "0xa" "enc") true 0 "t").2.1⟩

/-! ### C10: private key encryption round trip -/

/-- C10: for a cipher satisfying the library contract (decryption inverts
encryption on byte strings, and tokens stay in the ASCII range on the relevant
input, as Fernet tokens do), decrypting the encryption of a private key string
with the same wallet manager cipher returns the key exactly. -/
theorem C10_key_roundtrip (c : CipherSuite) (k : String)
    (hdec : ∀ bs, c.decrypt (c.encrypt bs) = bs)
    (hascii : ∀ b ∈ c.encrypt (strToBytes k), b < 128) :
    decrypt_private_key c (encrypt_private_key c k) = k := by
  unfold decrypt_private_key encrypt_private_key
  rw [strToBytes_bytesToStr (c.encrypt (strToBytes k)) hascii, hdec,
    bytesToStr_strToBytes]

/-- C10 witness: the reversal cipher satisfies both contract hypotheses on a
concrete hex key, and the round trip returns it. -/
theorem C10_key_roundtrip_witness :
    decrypt_private_key sampleCipher (encrypt_private_key sampleCipher "0xab12") =
      "0xab12" :=
  C10_key_roundtrip sampleCipher "0xab12" (fun bs => List.reverse_reverse bs)
    (by decide)

end BotMinting
